import Mathlib

/-!
Verification of the Ekslens lead-aggregation system.

This file shallowly embeds the Python code of the repository
(`ekslens_lead_master_modular.py`, `database.py`, `web_interface.py`,
`industries/medical_aesthetics.py`, `scrapers/serpapi_scraper.py`) as
executable Lean definitions, and proves or refutes the specification
claims about it.  Python dictionaries with possibly-missing keys are
modelled as structures with `Option String` fields (`none` = key absent
or SQL NULL); Python truthiness is modelled explicitly; wall-clock
timestamps, which are never read by the verified logic, are modelled
as the constant `0`.
-/

/-- `listStartsWith needle hay` : `needle` is a prefix of `hay`
(character lists). -/
def listStartsWith : List Char → List Char → Bool
  | [], _ => true
  | _ :: _, [] => false
  | a :: as, b :: bs => a == b && listStartsWith as bs

/-- `containsSub hay needle` : `needle` occurs as a contiguous
substring of `hay` (the empty needle always occurs).  This models the
Python operator `needle in hay` on strings. -/
def containsSub (hay needle : List Char) : Bool :=
  match hay with
  | [] => needle.isEmpty
  | _ :: t => listStartsWith needle hay || containsSub t needle

/-- Python `needle in hay` for strings. -/
def containsStr (hay needle : String) : Bool :=
  containsSub hay.data needle.data

/-- Lower-case one character the way Python `str.lower` does on the
characters appearing in this code base (ASCII plus the Spanish
accented vowels and enye). -/
def pyLowerChar (c : Char) : Char :=
  match c with
  | 'Á' => 'á'
  | 'É' => 'é'
  | 'Í' => 'í'
  | 'Ó' => 'ó'
  | 'Ú' => 'ú'
  | 'Ü' => 'ü'
  | 'Ñ' => 'ñ'
  | _ => c.toLower

/-- Python `str.lower`. -/
def pyLower (s : String) : String :=
  String.mk (s.data.map pyLowerChar)

/-- Python truthiness of a string (`""` is falsy). -/
def pyTruthyStr (s : String) : Bool :=
  decide (s ≠ "")

/-- Python truthiness of an optional string (`None` and `""` are
falsy); this models `bool(d.get(k))` for a dict field. -/
def pyTruthyOpt : Option String → Bool
  | none => false
  | some s => pyTruthyStr s

/-- Python `a or b` on optional strings: keep `a` when truthy,
otherwise fall through to `b`. -/
def pyOrOpt (a b : Option String) : Option String :=
  if pyTruthyOpt a then a else b

/-- Python `str.strip`: remove leading and trailing whitespace
(kernel-reducible, unlike `String.trim`). -/
def pyStrip (s : String) : String :=
  String.mk (((s.data.dropWhile Char.isWhitespace).reverse.dropWhile
    Char.isWhitespace).reverse)

/-- A candidate-lead dictionary as it flows through the coordinator
(`lead_data` in the Python sources).  Each field is `none` when the
corresponding dict key is absent. -/
structure LeadDict where
  name : Option String := none
  website : Option String := none
  description : Option String := none
  source : Option String := none
  keyword : Option String := none
  keyword_used : Option String := none
  city : Option String := none
  search_term : Option String := none
  industry : Option String := none
  url : Option String := none
  linkedin_url : Option String := none
deriving DecidableEq

/-- Positive company indicators of `MedicalAestheticsIndustry.get_company_indicators`. -/
def companyIndicators : List String :=
  ["aesthetic", "beauty", "cosmetic", "dermal", "botox",
   "filler", "clinic", "medical spa", "anti aging",
   "skin care", "facial", "injection", "treatment",
   "restylane", "juvederm", "sculptra", "radiesse",
   "belotero", "teosyal", "profhilo", "gouri",
   "distributor", "supplier", "training", "equipment"]

/-- Negative indicators local to `MedicalAestheticsIndustry.validate_lead`. -/
def negativeIndicators : List String :=
  ["hospital", "university", "school", "government",
   "insurance", "pharmacy chain", "drugstore"]

/-- `MedicalAestheticsIndustry.validate_lead`: combine the lowered
`name`, `description` and `url` fields, count positive and negative
indicator hits, and accept iff positive > negative and positive ≥ 1. -/
def validateLeadMA (lead : LeadDict) : Bool :=
  let name := pyLower (lead.name.getD "")
  let description := pyLower (lead.description.getD "")
  let url := pyLower (lead.url.getD "")
  let combined := name ++ " " ++ description ++ " " ++ url
  let positiveScore := companyIndicators.countP (fun i => containsStr combined (pyLower i))
  let negativeScore := negativeIndicators.countP (fun i => containsStr combined (pyLower i))
  decide (negativeScore < positiveScore) && decide (1 ≤ positiveScore)

/-- Specification-side count of positive-indicator hits over the
textual fields of a candidate (for comparison with the code's
`validate_lead`). -/
def positiveHits (lead : LeadDict) : Nat :=
  (companyIndicators.countP fun i =>
    containsStr (pyLower (lead.name.getD "") ++ " " ++ pyLower (lead.description.getD "")
      ++ " " ++ pyLower (lead.url.getD "")) (pyLower i))

/-- Specification-side count of negative-indicator hits. -/
def negativeHits (lead : LeadDict) : Nat :=
  (negativeIndicators.countP fun i =>
    containsStr (pyLower (lead.name.getD "") ++ " " ++ pyLower (lead.description.getD "")
      ++ " " ++ pyLower (lead.url.getD "")) (pyLower i))

/-- An industry policy: its display name and its validation predicate
(the only members of `BaseIndustry` exercised by the verified claims). -/
structure Industry where
  name : String
  validate : LeadDict → Bool

/-- The medical-aesthetics policy (`MedicalAestheticsIndustry`). -/
def medicalAesthetics : Industry :=
  { name := "Medical Aesthetics", validate := validateLeadMA }

/-- Generic validation of the §4.1 shape: positive-hit count versus
negative-hit count over fixed keyword sets. -/
def specValidate (pos neg : List String) (lead : LeadDict) : Bool :=
  let combined := pyLower (lead.name.getD "") ++ " " ++ pyLower (lead.description.getD "")
    ++ " " ++ pyLower (lead.url.getD "")
  let p := pos.countP (fun i => containsStr combined (pyLower i))
  let n := neg.countP (fun i => containsStr combined (pyLower i))
  decide (n < p) && decide (1 ≤ p)

/-- Modelled from the spec: `industries/real_estate.py` is not among
the sources; the spec (§4.1) only requires that a real-estate policy
instance exist in the registry, with a validate predicate of the
standard positive/negative-hit shape.  Its keyword sets are not given
by the spec and are not exercised by any claim. -/
def realEstate : Industry :=
  { name := "Real Estate", validate := specValidate [] [] }

/-- `EkslensLeadMaster._setup_industry`: registry lookup with
fall-back to the medical-aesthetics default; the Boolean records
whether the fall-back warning was logged. -/
def setupIndustry (industryType : String) : Industry × Bool :=
  let found : Option Industry :=
    if industryType = "medical_aesthetics" then some medicalAesthetics
    else if industryType = "real_estate" then some realEstate
    else none
  match found with
  | some ind => (ind, false)
  | none => (medicalAesthetics, true)

/-- A persisted row of the `leads` table (only the columns this code
writes or reads; `none` = SQL NULL). -/
structure DBRecord where
  id : Nat
  nombre : String
  website : Option String := none
  linkedin_url : Option String := none
  email : Option String := none
  telefono : Option String := none
  description : Option String := none
  source : Option String := none
  search_term : Option String := none
  productos_interes : Option String := none
deriving DecidableEq

/-- The lead store: rows in insertion order (oldest first) and the
next serial id. -/
structure DBState where
  records : List DBRecord
  nextId : Nat
deriving DecidableEq

/-- The empty store, with the serial starting at 1 as in PostgreSQL. -/
def emptyDB : DBState := { records := [], nextId := 1 }

/-- `Database.get_latest_leads`: rows ordered by creation time
descending, limited; each row also carries
`url = COALESCE(linkedin_url, website)`. -/
def getLatestLeads (db : DBState) (limit : Nat) : List DBRecord :=
  (db.records.reverse).take limit

/-- The `url` column computed by `get_latest_leads`:
`COALESCE(linkedin_url, website)`. -/
def coalesceUrl (r : DBRecord) : Option String :=
  r.linkedin_url <|> r.website

/-- `existing_lead.get('linkedin_url') or existing_lead.get('url','')`
inside `_save_lead_to_db`. -/
def existingUrl (r : DBRecord) : Option String :=
  pyOrOpt r.linkedin_url (coalesceUrl r)

/-- `Database.check_duplicate_lead`: match on exact `nombre`, and
additionally on exact `website` when the passed website is non-blank;
returns the id of the first matching row. -/
def checkDuplicateLead (db : DBState) (nombre : String) (website : String) : Option Nat :=
  let useWebsite := pyTruthyStr website && pyTruthyStr (pyStrip website)
  let dups := db.records.filter fun r =>
    r.nombre == nombre || (useWebsite && r.website == some website)
  dups.head?.map (·.id)

/-- The cleaned field map passed to `Database.insert_lead` (after the
`clean_data` comprehension dropped falsy values). -/
structure InsertData where
  nombre : String
  email : Option String := none
  telefono : Option String := none
  website : Option String := none
  linkedin_url : Option String := none
  description : Option String := none
  source : Option String := none
  search_term : Option String := none
  productos_interes : Option String := none
deriving DecidableEq

/-- `Database.insert_lead`: reject an empty `nombre`, resolve
duplicates to the existing id, otherwise append a new row and return
its fresh id. -/
def insertLead (db : DBState) (d : InsertData) : DBState × Option Nat :=
  if d.nombre = "" then (db, none)
  else
    let website := d.website.getD ""
    match checkDuplicateLead db d.nombre website with
    | some existingId => (db, some existingId)
    | none =>
        let r : DBRecord :=
          { id := db.nextId, nombre := d.nombre, website := d.website,
            linkedin_url := d.linkedin_url, email := d.email, telefono := d.telefono,
            description := d.description, source := d.source,
            search_term := d.search_term, productos_interes := d.productos_interes }
        ({ records := db.records ++ [r], nextId := db.nextId + 1 }, some db.nextId)

/-- Drop a falsy value, as the `clean_data` comprehension of
`Database.save_lead` does. -/
def cleanOpt (s : String) : Option String :=
  if s = "" then none else some s

/-- `Database.save_lead`: map the coordinator's field names onto the
table columns (`url` → `website`, and also `linkedin_url` when the url
contains `linkedin.com`), drop empty fields, and insert. -/
def saveLead (db : DBState) (name email phone url description source keyword industry : String) :
    DBState × Option Nat :=
  let linkedinUrl := if containsStr url "linkedin.com" then url else ""
  insertLead db
    { nombre := name, email := cleanOpt email, telefono := cleanOpt phone,
      website := cleanOpt url, linkedin_url := cleanOpt linkedinUrl,
      description := cleanOpt description, source := cleanOpt source,
      search_term := cleanOpt keyword, productos_interes := cleanOpt industry }

/-- Python truthiness of an optional integer result (`None` and `0`
are falsy). -/
def pyTruthyNat : Option Nat → Bool
  | none => false
  | some n => decide (n ≠ 0)

/-- The coordinator state touched by the save path: the shared lead
store plus the session `leads_saved` counter. -/
structure MasterState where
  db : DBState
  leads_saved : Nat
deriving DecidableEq

/-- `EkslensLeadMaster._save_lead_to_db`: reject candidates without a
truthy `name` and `linkedin_url`; reject candidates whose
`linkedin_url` equals the linkedin-or-website url of one of the 50
most recent rows; otherwise save through `Database.save_lead`,
incrementing `leads_saved` on a truthy returned id. -/
def saveLeadToDb (industryName : String) (ms : MasterState) (lead : LeadDict) :
    MasterState × Option Nat :=
  if !pyTruthyOpt lead.name || !pyTruthyOpt lead.linkedin_url then (ms, none)
  else
    let linkedinUrl := lead.linkedin_url.getD ""
    let existingLeads := getLatestLeads ms.db 50
    if existingLeads.any (fun r => existingUrl r == some linkedinUrl) then (ms, none)
    else
      let saved := saveLead ms.db (lead.name.getD "") "" "" linkedinUrl
        (lead.description.getD "")
        (lead.source.getD "")
        (match lead.keyword with
         | some k => k
         | none => lead.keyword_used.getD "")
        (match lead.industry with
         | some i => i
         | none => industryName)
      if pyTruthyNat saved.2 then
        ({ db := saved.1, leads_saved := ms.leads_saved + 1 }, saved.2)
      else
        ({ ms with db := saved.1 }, none)

/-- The phase-1 persistence loop of
`EkslensLeadMaster.run_master_search_with_keywords` (lines 129-133):
save every lead, and increment `leads_saved` once more in the caller
for every truthy returned id.  Returns the per-lead ids. -/
def savePhase (industryName : String) (ms : MasterState) :
    List LeadDict → MasterState × List (Option Nat)
  | [] => (ms, [])
  | lead :: rest =>
      let saved := saveLeadToDb industryName ms lead
      let ms2 :=
        if pyTruthyNat saved.2 then { saved.1 with leads_saved := saved.1.leads_saved + 1 }
        else saved.1
      let tail := savePhase industryName ms2 rest
      (tail.1, saved.2 :: tail.2)

/-- The spec's normalization of a display name
(case normalization and trimming of whitespace). -/
def normalizedName (s : String) : String :=
  pyStrip (pyLower s)

/-- One organic SerpApi result as read by
`SerpApiScraper._process_results` (`none` = key absent). -/
structure OrganicResult where
  title : Option String := none
  link : Option String := none
  snippet : Option String := none
deriving DecidableEq

/-- `SerpApiScraper._process_results`: take at most 5 organic results,
build candidate dictionaries (note: with `name` and `website` keys but
no `linkedin_url` key), keep those accepted by the industry policy. -/
def processResults (ind : Industry) (results : List OrganicResult) (keyword city : String) :
    List LeadDict :=
  ((results.take 5).map fun r =>
    { name := some (r.title.getD ""), website := some (r.link.getD ""),
      description := some (r.snippet.getD ""), source := some "SerpApi",
      keyword := some keyword, city := some city,
      search_term := some (keyword ++ " " ++ city),
      industry := some ind.name : LeadDict }).filter ind.validate

/-- The external SerpApi boundary: for a (city, keyword) pair — which
determines the request parameters built by `get_serpapi_params` — the
organic results `_execute_search` obtains, or `none` when the call
fails or the response has no organic results. -/
def SerpEnv : Type := String → String → Option (List OrganicResult)

/-- Inner keyword loop of `SerpApiScraper.search_by_keywords`. -/
def serpInnerLoop (env : SerpEnv) (ind : Industry) (city : String) :
    List String → Nat → Nat → List LeadDict → Nat × List LeadDict
  | [], _, count, acc => (count, acc)
  | keyword :: rest, maxSearches, count, acc =>
      if maxSearches ≤ count then (count, acc)
      else
        let acc' := match env city keyword with
          | some results => acc ++ processResults ind results keyword city
          | none => acc
        serpInnerLoop env ind city rest maxSearches (count + 1) acc'

/-- Outer city loop of `SerpApiScraper.search_by_keywords`. -/
def serpOuterLoop (env : SerpEnv) (ind : Industry) (keywords : List String) :
    List String → Nat → Nat → List LeadDict → Nat × List LeadDict
  | [], _, count, acc => (count, acc)
  | city :: rest, maxSearches, count, acc =>
      if maxSearches ≤ count then (count, acc)
      else
        let (count', acc') := serpInnerLoop env ind city keywords maxSearches count acc
        serpOuterLoop env ind keywords rest maxSearches count' acc'

/-- `SerpApiScraper.search_by_keywords`: nothing when the scraper is
unavailable, otherwise the bounded city × keyword search. -/
def searchByKeywords (env : SerpEnv) (available : Bool) (ind : Industry)
    (cities keywords : List String) (maxSearches : Nat) : List LeadDict :=
  if !available then []
  else (serpOuterLoop env ind keywords cities maxSearches 0 []).2

/-- The session report built by
`EkslensLeadMaster.run_master_search_with_keywords` (the parts read by
the web layer; `linkedin_results` is always empty because LinkedIn is
disabled, and `ai_emails` is empty in the configuration without the
generative-AI dependency). -/
structure RunResults where
  serpapi_results : List LeadDict
  linkedin_results : List LeadDict := []
  ai_emails : Nat := 0
  total_leads : Nat
  industry : String
  leads_saved : Nat
deriving DecidableEq

/-- `EkslensLeadMaster.run_master_search_with_keywords` (modelled in
the configuration where the generative-AI dependency is absent, as in
the import-failure path `genai = None`): run the SerpApi phase when
enabled, persist each lead through `_save_lead_to_db`, and assemble
the report.  `useLinkedin` is accepted and ignored, as in the source
(the LinkedIn phase is disabled). -/
def masterRun (env : SerpEnv) (available : Bool) (ind : Industry) (db : DBState)
    (cities keywords : List String) (maxSearches : Nat)
    (useSerpapi useLinkedin : Bool) : MasterState × RunResults :=
  let _ := useLinkedin
  let ms0 : MasterState := { db := db, leads_saved := 0 }
  let serpapiLeads :=
    if useSerpapi then searchByKeywords env available ind cities keywords maxSearches else []
  let saved := savePhase ind.name ms0 serpapiLeads
  (saved.1,
   { serpapi_results := serpapiLeads, total_leads := serpapiLeads.length,
     industry := ind.name, leads_saved := saved.1.leads_saved })

/-- One entry of `WebLogger` (`timestamp` is the wall clock, modelled
as `0` where the code takes `datetime.now()`). -/
structure LogEntry where
  timestamp : Nat
  level : String
  message : String
deriving DecidableEq

/-- Build a log entry at the modelled clock. -/
def mkLog (level message : String) : LogEntry :=
  { timestamp := 0, level := level, message := message }

/-- `WebLogger.add_log`: append, then keep only the last 100 entries. -/
def addLogEntry (logs : List LogEntry) (e : LogEntry) : List LogEntry :=
  let logs' := logs ++ [e]
  if 100 < logs'.length then logs'.drop (logs'.length - 100) else logs'

/-- The `app_state` global of `web_interface.py` (the fields the
claims concern; `current_session` is never read). -/
structure AppState where
  is_running : Bool
  progress : Nat
  status_message : String
  last_results : Option RunResults
deriving DecidableEq

/-- The whole shared web-layer state: `app_state`, the `web_logger`
entries, the lead store behind `Database`, and the worker's local
`results` binding (present once the search call has returned). -/
structure WebState where
  app : AppState
  logs : List LogEntry
  db : DBState
  localResults : Option RunResults
deriving DecidableEq

/-- The request body of `POST /api/start_search` (after JSON parsing
and defaulting). -/
structure StartRequest where
  cities : List String
  keywords : List String
  max_searches : Nat
  use_serpapi : Bool := true
  use_linkedin : Bool := true
  use_instagram : Bool := false
deriving DecidableEq

/-- An HTTP-level response of the start endpoint. -/
inductive StartResponse where
  | accepted (message : String)
  | rejected (error : String) (code : Nat)
deriving DecidableEq

/-- `start_search` viewed as one atomic request handler: the
early-return when a job is running, the three validations, and
otherwise the committed transition (spawn the worker, set the running
state, reset the logs).  The spawned worker itself is modelled
separately (`runWorkerNoStop` and friends). -/
def startSearch (w : WebState) (req : StartRequest) : WebState × StartResponse :=
  if w.app.is_running then
    (w, .rejected "Ya hay una búsqueda en progreso" 400)
  else if 10 < req.max_searches then
    (w, .rejected "Máximo 10 búsquedas permitidas" 400)
  else if 5 < req.cities.length then
    (w, .rejected "Máximo 5 ciudades permitidas" 400)
  else if 10 < req.keywords.length then
    (w, .rejected "Máximo 10 palabras clave permitidas" 400)
  else
    ({ w with
        app := { w.app with
                  is_running := true
                  progress := 0
                  status_message := "Iniciando búsqueda..." },
        logs := addLogEntry [] (mkLog "INFO" "Búsqueda iniciada") },
     .accepted "Búsqueda iniciada correctamente")

/-- `stop_search`: clear the running flag, set the stopped status
message, log a warning.  Nothing else is touched and no signal reaches
the worker. -/
def stopSearch (w : WebState) : WebState :=
  { w with
      app := { w.app with
                is_running := false
                status_message := "Búsqueda detenida por el usuario" },
      logs := addLogEntry w.logs (mkLog "WARNING" "Búsqueda detenida por el usuario") }

/-- The inputs of one background run of `run_search_process`: the
request-derived arguments plus the external SerpApi boundary and the
scraper's availability. -/
structure RunParams where
  env : SerpEnv
  available : Bool
  cities : List String
  keywords : List String
  maxSearches : Nat
  useSerpapi : Bool
  useLinkedin : Bool
  useInstagram : Bool

/-- The empty report (used only as the impossible default when reading
the worker's local `results` binding before the search step). -/
def emptyRunResults : RunResults :=
  { serpapi_results := [], total_leads := 0, industry := "", leads_saved := 0 }

/-- The completion status message
`f'✅ Completado: {results.get("total_leads", 0)} leads encontrados'`. -/
def completedMsg (res : RunResults) : String :=
  "✅ Completado: " ++ toString res.total_leads ++ " leads encontrados"

/-- The body of `run_search_process` as its successive regions, each a
transformation of the shared state.  A stop request or an exception
can land between two regions; no region reads the `is_running` flag. -/
def workerSteps (P : RunParams) : List (WebState → WebState) :=
  [ -- lines 222-224: initial log, status, progress 10
   fun w =>
    { w with
        logs := addLogEntry w.logs (mkLog "INFO" "🚀 Iniciando EKSLENS Lead Master")
        app := { w.app with
                  status_message := "Configurando sistema..."
                  progress := 10 } },
   -- lines 227-237: construct the coordinator, configuration logs,
   -- progress 20, status
   fun w =>
    let logs := addLogEntry w.logs
      (mkLog "INFO" ("📍 Ciudades: " ++ String.intercalate ", " P.cities))
    let logs := addLogEntry logs
      (mkLog "INFO" ("🔍 Keywords: " ++ String.intercalate ", " P.keywords))
    let logs := addLogEntry logs
      (mkLog "INFO" ("🔍 SerpApi: " ++ if P.useSerpapi then "✅" else "❌"))
    let logs := addLogEntry logs
      (mkLog "INFO" ("🔍 Búsquedas SerpApi: " ++ toString P.maxSearches))
    let logs := addLogEntry logs
      (mkLog "INFO" ("🔗 LinkedIn: " ++ if P.useLinkedin then "✅" else "❌"))
    { w with
        logs := logs
        app := { w.app with
                  progress := 20
                  status_message := "Ejecutando búsquedas..." } },
   -- lines 240-246: the whole master search (which never raises: it
   -- catches internally), persisting into the shared store
   fun w =>
    let run := masterRun P.env P.available medicalAesthetics w.db
      P.cities P.keywords P.maxSearches P.useSerpapi P.useLinkedin
    { w with db := run.1.db, localResults := some run.2 },
   -- lines 248-249
   fun w =>
    { w with app := { w.app with
                       progress := 90
                       status_message := "Finalizando..." } },
   -- lines 252-258: store the report, progress 100, completion
   -- status, success logs
   fun w =>
    let res := w.localResults.getD emptyRunResults
    let logs := addLogEntry w.logs (mkLog "SUCCESS" "🎯 Búsqueda completada exitosamente")
    let logs := addLogEntry logs
      (mkLog "INFO" ("📊 Total leads: " ++ toString res.total_leads))
    let logs := addLogEntry logs
      (mkLog "INFO" ("📧 Emails generados: " ++ toString res.ai_emails))
    { w with
        logs := logs
        app := { w.app with
                  last_results := some res
                  progress := 100
                  status_message := completedMsg res } },
   -- lines 261-267: serialize the session file (the write itself does
   -- not touch the shared state), then log it
   fun w =>
    { w with logs := addLogEntry w.logs (mkLog "INFO" "📄 Log guardado: web_session.json") }]

/-- Apply a list of state transformations in order. -/
def runFrom (steps : List (WebState → WebState)) (w : WebState) : WebState :=
  steps.foldl (fun w f => f w) w

/-- The `finally` clause of `run_search_process`. -/
def finallyClear (w : WebState) : WebState :=
  { w with app := { w.app with is_running := false } }

/-- The `except` clause of `run_search_process` for an exception
rendered as `e`. -/
def exceptBranch (e : String) (w : WebState) : WebState :=
  { w with
      logs := addLogEntry w.logs (mkLog "ERROR" ("❌ Error en búsqueda: " ++ e))
      app := { w.app with
                status_message := "❌ Error en búsqueda: " ++ e
                progress := 0 } }

/-- A run of `run_search_process` with no stop request and no
exception. -/
def runWorkerNoStop (P : RunParams) (w : WebState) : WebState :=
  finallyClear (runFrom (workerSteps P) w)

/-- A run of `run_search_process` in which region `i` raises an
exception rendered as `e` (regions `0..i-1` complete, the except and
finally clauses run). -/
def runWorkerFailAt (P : RunParams) (i : Nat) (e : String) (w : WebState) : WebState :=
  finallyClear (exceptBranch e (runFrom ((workerSteps P).take i) w))

/-- A run of `run_search_process` with a concurrent `stop_search`
request landing between regions `k-1` and `k`. -/
def runWorkerWithStopAt (P : RunParams) (k : Nat) (w : WebState) : WebState :=
  finallyClear (runFrom ((workerSteps P).drop k)
    (stopSearch (runFrom ((workerSteps P).take k) w)))

/-- The progress of one start request through the `start_search`
handler, decomposed at its two shared-state accesses. -/
inductive ReqPhase where
  | ready : ReqPhase
  | checked : Bool → ReqPhase
  | finished : Bool → ReqPhase
deriving DecidableEq

/-- Two concurrent start requests over the shared state: `workers`
counts the spawned background threads. -/
structure RaceState where
  app : AppState
  logs : List LogEntry
  reqA : ReqPhase
  reqB : ReqPhase
  workers : Nat
deriving DecidableEq

/-- Advance one request (A when `isA`) by one atomic micro-operation
of `start_search`: first the read `if app_state['is_running']`
(line 178), then — when that read saw `False` — the whole commit
(spawn the thread, set the running state, reset the logs, lines
200-213; modelling the commit as a single atomic block is generous to
the code).  A request whose read saw `True` finishes rejected without
touching the state. -/
def raceStep (s : RaceState) (isA : Bool) : RaceState :=
  let phase := if isA then s.reqA else s.reqB
  let setPhase := fun (s' : RaceState) (p : ReqPhase) =>
    if isA then { s' with reqA := p } else { s' with reqB := p }
  match phase with
  | .ready => setPhase s (.checked s.app.is_running)
  | .checked true => setPhase s (.finished false)
  | .checked false =>
      setPhase
        { s with
            app := { s.app with
                      is_running := true
                      progress := 0
                      status_message := "Iniciando búsqueda..." },
            logs := addLogEntry [] (mkLog "INFO" "Búsqueda iniciada"),
            workers := s.workers + 1 }
        (.finished true)
  | .finished _ => s

/-- Run a schedule (`true` = request A moves) over the race model. -/
def raceRun (sched : List Bool) (s : RaceState) : RaceState :=
  sched.foldl raceStep s

/-- The idle shared state before any request. -/
def idleRaceState : RaceState :=
  { app := { is_running := false, progress := 0,
             status_message := "Sistema listo", last_results := none },
    logs := [], reqA := .ready, reqB := .ready, workers := 0 }

/-- `validate_lead` accepts exactly when the positive-indicator hit
count exceeds the negative one and is at least 1. -/
lemma validateLeadMA_iff (l : LeadDict) :
    validateLeadMA l = true ↔ (negativeHits l < positiveHits l ∧ 1 ≤ positiveHits l) := by
  simp only [validateLeadMA, positiveHits, negativeHits, Bool.and_eq_true, decide_eq_true_eq]

/-- The concrete accepted example of the spec (§8). -/
def exGoodLead : LeadDict :=
  { name := some "Clínica Botox Madrid", description := some "aesthetic clinic" }

/-- The concrete rejected example of the spec (§8). -/
def exBadLead : LeadDict :=
  { name := some "Hospital General", description := some "public hospital" }

/-- C7: the medical-aesthetics validate predicate is a pure function
of the candidate's `name`, `description` and `url` fields; it accepts
iff the positive-indicator count strictly exceeds the negative count
and is at least 1; a candidate with zero positive hits is rejected;
and the spec's two concrete examples evaluate as stated. -/
theorem claim_c7_validate_predicate :
    (∀ l1 l2 : LeadDict, l1.name = l2.name → l1.description = l2.description →
      l1.url = l2.url → validateLeadMA l1 = validateLeadMA l2) ∧
    (∀ l : LeadDict, validateLeadMA l = true ↔
      (negativeHits l < positiveHits l ∧ 1 ≤ positiveHits l)) ∧
    (∀ l : LeadDict, positiveHits l = 0 → validateLeadMA l = false) ∧
    validateLeadMA exGoodLead = true ∧ validateLeadMA exBadLead = false := by
  refine ⟨?_, validateLeadMA_iff, ?_, by decide, by decide⟩
  · intro l1 l2 h1 h2 h3
    simp only [validateLeadMA, h1, h2, h3]
  · intro l h
    cases hb : validateLeadMA l with
    | false => rfl
    | true =>
        have := (validateLeadMA_iff l).mp hb
        omega

/-- Witness for C7: purity applied at a concrete pair differing only
in a field `validate_lead` does not read, and the zero-positive
rejection applied at a concrete candidate. -/
theorem claim_c7_witness :
    validateLeadMA { exGoodLead with source := some "SerpApi" } = validateLeadMA exGoodLead ∧
    validateLeadMA { name := some "Zapatería Pérez" } = false :=
  ⟨claim_c7_validate_predicate.1 _ _ rfl rfl rfl,
   claim_c7_validate_predicate.2.2.1 _ (by decide)⟩

/-- C6: the industry registry never errors: both known identifiers
resolve to their policy without a warning, and every unknown
identifier falls back to the default medical-aesthetics policy with
the warning logged. -/
theorem claim_c6_industry_registry :
    setupIndustry "medical_aesthetics" = (medicalAesthetics, false) ∧
    setupIndustry "real_estate" = (realEstate, false) ∧
    ∀ s : String, s ≠ "medical_aesthetics" → s ≠ "real_estate" →
      setupIndustry s = (medicalAesthetics, true) := by
  refine ⟨rfl, rfl, fun s h1 h2 => ?_⟩
  simp [setupIndustry, h1, h2]

/-- Witness for C6 at a concrete unknown identifier. -/
theorem claim_c6_witness :
    setupIndustry "automotive" = (medicalAesthetics, true) :=
  claim_c6_industry_registry.2.2 "automotive" (by decide) (by decide)

/-- Ring-buffer characterization of `WebLogger.add_log` iterated from
an empty logger: exactly the most recent 100 entries survive, in
order. -/
lemma foldl_addLogEntry_eq (es : List LogEntry) :
    List.foldl addLogEntry [] es = es.drop (es.length - 100) := by
  induction es using List.reverseRecOn with
  | nil => rfl
  | append_singleton es e ih =>
      rw [List.foldl_append, List.foldl_cons, List.foldl_nil, ih]
      have hlen1 : (es ++ [e]).length = es.length + 1 := by simp
      rcases Nat.lt_or_ge es.length 100 with h | h
      · have h0 : es.length - 100 = 0 := by omega
        have h1 : (es ++ [e]).length - 100 = 0 := by omega
        rw [h0, h1, List.drop_zero, List.drop_zero]
        simp only [addLogEntry]
        have hno : ¬ 100 < (es ++ [e]).length := by omega
        simp only [hno, if_false]
      · have hx : (es.drop (es.length - 100)).length = 100 := by
          rw [List.length_drop]; omega
        simp only [addLogEntry]
        have hlen : (es.drop (es.length - 100) ++ [e]).length = 101 := by
          simp [hx]
        simp only [hlen]
        rw [if_pos (by omega)]
        have h2 : (101 : Nat) - 100 = 1 := rfl
        have hd1 : (1 : Nat) ≤ (es.drop (es.length - 100)).length := by omega
        rw [h2, List.drop_append_of_le_length hd1, List.drop_drop]
        have h3 : (es ++ [e]).length - 100 = (es.length - 100) + 1 := by omega
        have hd2 : es.length - 100 + 1 ≤ es.length := by omega
        rw [h3, List.drop_append_of_le_length hd2]

/-- C8: the log never exceeds 100 entries whatever the append
sequence, and after appending 150 entries from an empty logger the
oldest 50 are gone and exactly the most recent 100 remain, in their
original append order. -/
theorem claim_c8_log_ring_buffer :
    (∀ es : List LogEntry, (List.foldl addLogEntry [] es).length ≤ 100) ∧
    (∀ es : List LogEntry, es.length = 150 →
      List.foldl addLogEntry [] es = es.drop 50) := by
  constructor
  · intro es
    rw [foldl_addLogEntry_eq, List.length_drop]
    omega
  · intro es h
    rw [foldl_addLogEntry_eq, h]

/-- A concrete sequence of 150 distinct log entries. -/
def logs150 : List LogEntry :=
  (List.range 150).map fun i => { timestamp := i, level := "INFO", message := toString i }

/-- Witness for C8 at the concrete 150-entry sequence. -/
theorem claim_c8_witness :
    List.foldl addLogEntry [] logs150 = logs150.drop 50 :=
  claim_c8_log_ring_buffer.2 logs150 (by simp [logs150])

/-- C4: any start request arriving while `is_running` is set is
rejected synchronously with the job-already-in-progress error and HTTP
status 400, and the whole shared state is returned unchanged. -/
theorem claim_c4_reject_when_running :
    ∀ (w : WebState) (req : StartRequest), w.app.is_running = true →
      startSearch w req = (w, .rejected "Ya hay una búsqueda en progreso" 400) := by
  intro w req h
  simp [startSearch, h]

/-- A shared state with a job already running. -/
def busyWeb : WebState :=
  { app := { is_running := true, progress := 42,
             status_message := "Ejecutando búsquedas...", last_results := none },
    logs := [{ timestamp := 0, level := "INFO", message := "Búsqueda iniciada" }],
    db := emptyDB, localResults := none }

/-- Witness for C4 at a concrete busy state and request. -/
theorem claim_c4_witness :
    startSearch busyWeb
      { cities := ["madrid"], keywords := ["botox"], max_searches := 3 } =
      (busyWeb, .rejected "Ya hay una búsqueda en progreso" 400) :=
  claim_c4_reject_when_running busyWeb _ (by decide)

/-- C3 (divergence witness): under the interleaving in which both
start requests perform the `is_running` read before either performs
the commit, both requests are accepted and two worker threads are
spawned — the check-and-set is not atomic.  Under the sequential
schedule the second request is rejected and exactly one thread is
spawned. -/
theorem claim_c3_start_race :
    (raceRun [true, false, true, false] idleRaceState).reqA = .finished true ∧
    (raceRun [true, false, true, false] idleRaceState).reqB = .finished true ∧
    (raceRun [true, false, true, false] idleRaceState).workers = 2 ∧
    (raceRun [true, true, false, false] idleRaceState).reqA = .finished true ∧
    (raceRun [true, true, false, false] idleRaceState).reqB = .finished false ∧
    (raceRun [true, true, false, false] idleRaceState).workers = 1 := by
  refine ⟨rfl, rfl, rfl, rfl, rfl, rfl⟩

/-- `_save_lead_to_db` rejects, before any duplicate check or store
access, every candidate whose dict lacks a truthy `linkedin_url`. -/
lemma saveLeadToDb_no_linkedin (indName : String) (ms : MasterState) (l : LeadDict)
    (h : l.linkedin_url = none) : saveLeadToDb indName ms l = (ms, none) := by
  simp [saveLeadToDb, h, pyTruthyOpt]

/-- The phase-1 loop is the identity on the coordinator state when
every incoming lead lacks a `linkedin_url` key. -/
lemma savePhase_no_linkedin (indName : String) (ms : MasterState) (leads : List LeadDict)
    (h : ∀ l ∈ leads, l.linkedin_url = none) :
    savePhase indName ms leads = (ms, leads.map fun _ => none) := by
  induction leads generalizing ms with
  | nil => rfl
  | cons l ls ih =>
      have hl : l.linkedin_url = none := h l (by simp)
      have hs : ∀ x ∈ ls, x.linkedin_url = none := fun x hx => h x (by simp [hx])
      simp only [savePhase, saveLeadToDb_no_linkedin indName ms l hl, pyTruthyNat,
        Bool.false_eq_true, if_false, ih ms hs, List.map_cons]

/-- C10: every candidate built by the SerpApi collector carries `name`
and `website` keys but no `linkedin_url` key; `_save_lead_to_db`
returns `None` for any candidate without a `linkedin_url` while
touching neither the store nor the counter; hence a whole phase-1 pass
over SerpApi candidates persists nothing and increments nothing. -/
theorem claim_c10_serpapi_never_persisted :
    (∀ (ind : Industry) (rs : List OrganicResult) (kw city : String),
      ∀ l ∈ processResults ind rs kw city,
        l.name.isSome ∧ l.website.isSome ∧ l.linkedin_url = none) ∧
    (∀ (indName : String) (ms : MasterState) (l : LeadDict),
      l.linkedin_url = none → saveLeadToDb indName ms l = (ms, none)) ∧
    (∀ (indName : String) (ms : MasterState) (ind : Industry)
        (rs : List OrganicResult) (kw city : String),
      savePhase indName ms (processResults ind rs kw city) =
        (ms, (processResults ind rs kw city).map fun _ => none)) := by
  have hkeys : ∀ (ind : Industry) (rs : List OrganicResult) (kw city : String),
      ∀ l ∈ processResults ind rs kw city,
        l.name.isSome ∧ l.website.isSome ∧ l.linkedin_url = none := by
    intro ind rs kw city l hl
    simp only [processResults, List.mem_filter, List.mem_map] at hl
    obtain ⟨⟨r, _, rfl⟩, _⟩ := hl
    exact ⟨rfl, rfl, rfl⟩
  refine ⟨hkeys, saveLeadToDb_no_linkedin, ?_⟩
  intro indName ms ind rs kw city
  exact savePhase_no_linkedin indName ms _ fun l hl => (hkeys ind rs kw city l hl).2.2

/-- A concrete SerpApi-built candidate (no `linkedin_url` key). -/
def serpLeadW : LeadDict :=
  { name := some "Clinica Estetica Sol", website := some "https://sol.example",
    description := some "aesthetic clinic", source := some "SerpApi" }

/-- Witness for C10: the early return applied at a concrete state and
candidate. -/
theorem claim_c10_witness :
    saveLeadToDb "Medical Aesthetics" { db := emptyDB, leads_saved := 0 } serpLeadW =
      ({ db := emptyDB, leads_saved := 0 }, none) :=
  claim_c10_serpapi_never_persisted.2.1 "Medical Aesthetics" _ serpLeadW rfl

/-- The report the worker computes in its search region (a pure
function of the inputs and of the store at worker start, since the two
regions before it never touch the store). -/
def resultsOf (P : RunParams) (w : WebState) : RunResults :=
  (masterRun P.env P.available medicalAesthetics w.db
    P.cities P.keywords P.maxSearches P.useSerpapi P.useLinkedin).2

/-- C9 (amended): whenever region `i` of the worker raises, the job
ends with `is_running` cleared, progress 0 and the error status
message; `last_results` keeps its previous value if the error struck
before the report-storing region, but an error in the final
session-file write (region 5) strikes after `last_results` was already
overwritten with the new completed report. -/
theorem claim_c9_failure_frame :
    ∀ (P : RunParams) (w : WebState) (e : String) (i : Nat), i ≤ 5 →
      (runWorkerFailAt P i e w).app.is_running = false ∧
      (runWorkerFailAt P i e w).app.progress = 0 ∧
      (runWorkerFailAt P i e w).app.status_message = "❌ Error en búsqueda: " ++ e ∧
      (i ≤ 4 → (runWorkerFailAt P i e w).app.last_results = w.app.last_results) ∧
      (i = 5 → (runWorkerFailAt P i e w).app.last_results = some (resultsOf P w)) := by
  intro P w e i hi
  interval_cases i <;>
    simp [runWorkerFailAt, workerSteps, runFrom, exceptBranch, finallyClear, resultsOf]

/-- Run inputs with the scraper unavailable (no API key). -/
def trivialParams : RunParams :=
  { env := fun _ _ => none, available := false, cities := ["madrid"],
    keywords := ["botox"], maxSearches := 1, useSerpapi := true,
    useLinkedin := true, useInstagram := false }

/-- A previously completed report retained in `last_results`. -/
def prevReport : RunResults :=
  { serpapi_results := [], total_leads := 7,
    industry := "Medical Aesthetics", leads_saved := 7 }

/-- Shared state at worker start, holding the previous report. -/
def failWeb0 : WebState :=
  { app := { is_running := true, progress := 0,
             status_message := "Iniciando búsqueda...", last_results := some prevReport },
    logs := [], db := emptyDB, localResults := none }

/-- Witness for C9 at a concrete failing region before the
report-storing region. -/
theorem claim_c9_witness :
    (runWorkerFailAt trivialParams 1 "connection refused" failWeb0).app.is_running = false ∧
    (runWorkerFailAt trivialParams 1 "connection refused" failWeb0).app.progress = 0 ∧
    (runWorkerFailAt trivialParams 1 "connection refused" failWeb0).app.status_message =
      "❌ Error en búsqueda: " ++ "connection refused" ∧
    (runWorkerFailAt trivialParams 1 "connection refused" failWeb0).app.last_results =
      failWeb0.app.last_results :=
  have h := claim_c9_failure_frame trivialParams failWeb0 "connection refused" 1 (by decide)
  ⟨h.1, h.2.1, h.2.2.1, h.2.2.2.1 (by decide)⟩

/-- Counterexample for C9 as stated: when the unhandled error strikes
in the session-file write (after the search completed), `last_results`
does not keep its previous value — it already holds the new report. -/
theorem claim_c9_counterexample :
    (runWorkerFailAt trivialParams 5 "No space left on device" failWeb0).app.last_results ≠
      failWeb0.app.last_results := by decide

/-- `insert_lead` only ever appends to the table. -/
lemma insertLead_records_mono (db : DBState) (d : InsertData) :
    ∃ t, (insertLead db d).1.records = db.records ++ t := by
  unfold insertLead
  split
  · exact ⟨[], by simp⟩
  · cases h : checkDuplicateLead db d.nombre (d.website.getD "") with
    | none =>
        exact ⟨[{ id := db.nextId, nombre := d.nombre, website := d.website,
                  linkedin_url := d.linkedin_url, email := d.email, telefono := d.telefono,
                  description := d.description, source := d.source,
                  search_term := d.search_term, productos_interes := d.productos_interes }],
               by simp [h]⟩
    | some i => exact ⟨[], by simp [h]⟩

/-- `save_lead` only ever appends to the table. -/
lemma saveLead_records_mono (db : DBState)
    (name email phone url description source keyword industry : String) :
    ∃ t, (saveLead db name email phone url description source keyword industry).1.records =
      db.records ++ t := by
  unfold saveLead
  exact insertLead_records_mono db _

/-- `_save_lead_to_db` only ever appends to the table. -/
lemma saveLeadToDb_records_mono (indName : String) (ms : MasterState) (l : LeadDict) :
    ∃ t, (saveLeadToDb indName ms l).1.db.records = ms.db.records ++ t := by
  cases hb1 : (!pyTruthyOpt l.name || !pyTruthyOpt l.linkedin_url) with
  | true => exact ⟨[], by simp [saveLeadToDb, hb1]⟩
  | false =>
      cases hb2 : (getLatestLeads ms.db 50).any
          (fun r => existingUrl r == some (l.linkedin_url.getD "")) with
      | true => exact ⟨[], by simp [saveLeadToDb, hb1, hb2]⟩
      | false =>
          obtain ⟨t, ht⟩ := saveLead_records_mono ms.db (l.name.getD "") "" ""
            (l.linkedin_url.getD "") (l.description.getD "") (l.source.getD "")
            (match l.keyword with
             | some k => k
             | none => l.keyword_used.getD "")
            (match l.industry with
             | some i => i
             | none => indName)
          refine ⟨t, ?_⟩
          simp only [saveLeadToDb, hb1, Bool.false_eq_true, if_false, hb2]
          split <;> exact ht

/-- The whole phase-1 loop only ever appends to the table. -/
lemma savePhase_records_mono (indName : String) (leads : List LeadDict) (ms : MasterState) :
    ∃ t, (savePhase indName ms leads).1.db.records = ms.db.records ++ t := by
  induction leads generalizing ms with
  | nil => exact ⟨[], by simp [savePhase]⟩
  | cons l ls ih =>
      obtain ⟨t1, h1⟩ := saveLeadToDb_records_mono indName ms l
      simp only [savePhase]
      split
      · obtain ⟨t2, h2⟩ := ih { (saveLeadToDb indName ms l).1 with
          leads_saved := (saveLeadToDb indName ms l).1.leads_saved + 1 }
        refine ⟨t1 ++ t2, ?_⟩
        simp only at h2
        rw [h2, h1, List.append_assoc]
      · obtain ⟨t2, h2⟩ := ih (saveLeadToDb indName ms l).1
        refine ⟨t1 ++ t2, ?_⟩
        rw [h2, h1, List.append_assoc]

/-- Every region of the worker only ever appends to the table. -/
lemma workerStep_records_mono (P : RunParams) :
    ∀ f ∈ workerSteps P, ∀ w : WebState, ∃ t, (f w).db.records = w.db.records ++ t := by
  intro f hf w
  simp only [workerSteps, List.mem_cons, List.not_mem_nil, or_false] at hf
  rcases hf with rfl | rfl | rfl | rfl | rfl | rfl
  · exact ⟨[], by simp⟩
  · exact ⟨[], by simp⟩
  · simp only [masterRun]
    exact savePhase_records_mono _ _ _
  · exact ⟨[], by simp⟩
  · exact ⟨[], by simp⟩
  · exact ⟨[], by simp⟩

/-- Iterating append-only regions is append-only. -/
lemma runFrom_records_mono (fs : List (WebState → WebState))
    (hfs : ∀ f ∈ fs, ∀ w : WebState, ∃ t, (f w).db.records = w.db.records ++ t) :
    ∀ w : WebState, ∃ t, (runFrom fs w).db.records = w.db.records ++ t := by
  induction fs with
  | nil => exact fun w => ⟨[], by simp [runFrom]⟩
  | cons f fs ih =>
      intro w
      obtain ⟨t1, h1⟩ := hfs f (by simp) w
      obtain ⟨t2, h2⟩ := ih (fun g hg => hfs g (by simp [hg])) (f w)
      refine ⟨t1 ++ t2, ?_⟩
      simp only [runFrom, List.foldl_cons] at h2 ⊢
      rw [h2, h1, List.append_assoc]

/-- C5 (amended): a stop request only flips `is_running`, sets the
stopped status message and logs a warning; the worker never reads the
flag, so a run stopped before its report-storing region still executes
every remaining region and finalizes exactly the state of an
unstopped run (same final status message, progress, stored report and
store contents), and every lead persisted before the stop is still
present at the end. -/
theorem claim_c5_stop_is_advisory :
    (∀ w : WebState,
      (stopSearch w).app.is_running = false ∧
      (stopSearch w).app.status_message = "Búsqueda detenida por el usuario" ∧
      (stopSearch w).db = w.db ∧
      (stopSearch w).app.last_results = w.app.last_results) ∧
    (∀ (P : RunParams) (w : WebState) (k : Nat), k ≤ 4 →
      (runWorkerWithStopAt P k w).app.status_message =
        (runWorkerNoStop P w).app.status_message ∧
      (runWorkerWithStopAt P k w).app.progress = (runWorkerNoStop P w).app.progress ∧
      (runWorkerWithStopAt P k w).app.last_results =
        (runWorkerNoStop P w).app.last_results ∧
      (runWorkerWithStopAt P k w).db = (runWorkerNoStop P w).db ∧
      (runWorkerWithStopAt P k w).app.is_running = false) ∧
    (∀ (P : RunParams) (w : WebState) (k : Nat),
      ∀ r ∈ (stopSearch (runFrom ((workerSteps P).take k) w)).db.records,
        r ∈ (runWorkerWithStopAt P k w).db.records) := by
  refine ⟨fun w => ⟨rfl, rfl, rfl, rfl⟩, ?_, ?_⟩
  · intro P w k hk
    interval_cases k <;>
      simp [runWorkerWithStopAt, runWorkerNoStop, workerSteps, runFrom, stopSearch,
        finallyClear]
  · intro P w k r hr
    have hsub : ∀ f ∈ (workerSteps P).drop k, ∀ u : WebState,
        ∃ t, (f u).db.records = u.db.records ++ t :=
      fun f hf => workerStep_records_mono P f (List.drop_subset k (workerSteps P) hf)
    obtain ⟨t, ht⟩ :=
      runFrom_records_mono _ hsub (stopSearch (runFrom ((workerSteps P).take k) w))
    unfold runWorkerWithStopAt finallyClear
    simp only
    rw [ht]
    exact List.mem_append_left _ hr

/-- A SerpApi boundary returning one validated candidate for the
(madrid, botox) request. -/
def stopEnv : SerpEnv := fun city kw =>
  if city = "madrid" ∧ kw = "botox" then
    some [{ title := some "Clinica Botox Madrid", link := some "https://clinicabotox.example",
            snippet := some "aesthetic clinic" }]
  else none

/-- Run inputs for one productive SerpApi search. -/
def stopParams : RunParams :=
  { env := stopEnv, available := true, cities := ["madrid"], keywords := ["botox"],
    maxSearches := 1, useSerpapi := true, useLinkedin := true, useInstagram := false }

/-- Shared state right after a start request was accepted. -/
def stopWeb0 : WebState :=
  { app := { is_running := true, progress := 0,
             status_message := "Iniciando búsqueda...", last_results := none },
    logs := [], db := emptyDB, localResults := none }

/-- Shared state at worker start over a store already holding one
persisted lead. -/
def stopWeb1 : WebState :=
  { app := { is_running := true, progress := 0,
             status_message := "Iniciando búsqueda...", last_results := none },
    logs := [],
    db := { records := [{ id := 1, nombre := "Clinica A",
                          website := some "https://a.example" }], nextId := 2 },
    localResults := none }

/-- Witness for C5 at a concrete run, initial state and stop point;
the last conjunct instantiates the lead-retention part at a concrete
row persisted before the stop. -/
theorem claim_c5_witness :
    (runWorkerWithStopAt stopParams 2 stopWeb0).app.status_message =
      (runWorkerNoStop stopParams stopWeb0).app.status_message ∧
    (runWorkerWithStopAt stopParams 2 stopWeb0).app.last_results =
      (runWorkerNoStop stopParams stopWeb0).app.last_results ∧
    (runWorkerWithStopAt stopParams 2 stopWeb0).db =
      (runWorkerNoStop stopParams stopWeb0).db ∧
    ({ id := 1, nombre := "Clinica A", website := some "https://a.example" : DBRecord } ∈
      (runWorkerWithStopAt stopParams 2 stopWeb1).db.records) :=
  have h := claim_c5_stop_is_advisory.2.1 stopParams stopWeb0 2 (by decide)
  ⟨h.1, h.2.2.1, h.2.2.2.1,
   claim_c5_stop_is_advisory.2.2 stopParams stopWeb1 2 _ (by decide)⟩

/-- Counterexample for C5 as stated: with a stop request landing
mid-run (between the configuration and search regions), the job does
not end cancelled — the search region still runs its full budget, the
final status message is the completion message (the stop message is
overwritten), progress reaches 100 and the full (not partial) report
is stored. -/
theorem claim_c5_counterexample :
    (runWorkerWithStopAt stopParams 2 stopWeb0).app.status_message =
      "✅ Completado: 1 leads encontrados" ∧
    (runWorkerWithStopAt stopParams 2 stopWeb0).app.status_message ≠
      "Búsqueda detenida por el usuario" ∧
    (runWorkerWithStopAt stopParams 2 stopWeb0).app.progress = 100 ∧
    ((runWorkerWithStopAt stopParams 2 stopWeb0).app.last_results.map
      fun r => r.total_leads) = some 1 := by
  refine ⟨by decide, by decide, by decide, by decide⟩

/-- The row that `_save_lead_to_db` → `save_lead` → `insert_lead`
writes for a candidate `l` when no duplicate is found (the
composition of the dict construction and the column mapping). -/
def savedRecord (indName : String) (l : LeadDict) (id : Nat) : DBRecord :=
  { id := id,
    nombre := l.name.getD "",
    website := cleanOpt (l.linkedin_url.getD ""),
    linkedin_url := cleanOpt (if containsStr (l.linkedin_url.getD "") "linkedin.com"
      then l.linkedin_url.getD "" else ""),
    email := cleanOpt "",
    telefono := cleanOpt "",
    description := cleanOpt (l.description.getD ""),
    source := cleanOpt (l.source.getD ""),
    search_term := cleanOpt (match l.keyword with
      | some k => k
      | none => l.keyword_used.getD ""),
    productos_interes := cleanOpt (match l.industry with
      | some i => i
      | none => indName) }

/-- The linkedin-or-website url of a freshly saved row is the
candidate's `linkedin_url`. -/
lemma existingUrl_savedRecord (indName : String) (l : LeadDict) (id : Nat) (u : String)
    (hu1 : l.linkedin_url = some u) (hu : u ≠ "") :
    existingUrl (savedRecord indName l id) = some u := by
  have hgu : l.linkedin_url.getD "" = u := by rw [hu1]; rfl
  unfold existingUrl savedRecord coalesceUrl pyOrOpt pyTruthyOpt pyTruthyStr cleanOpt
  rw [hgu]
  by_cases hc : containsStr u "linkedin.com" = true
  · simp [hc, hu]
  · simp [hc, hu]

/-- `_save_lead_to_db` on a candidate matching nothing in the store:
exactly one row is appended, the fresh id is returned, and the helper
increments `leads_saved` once. -/
lemma saveLeadToDb_fresh_insert (indName : String) (db : DBState) (s : Nat) (l : LeadDict)
    (n u : String)
    (hn1 : l.name = some n) (hn : n ≠ "") (hu1 : l.linkedin_url = some u) (hu : u ≠ "")
    (hid : db.nextId ≠ 0)
    (hlatest : ∀ r ∈ db.records, existingUrl r ≠ some u)
    (hdup : ∀ r ∈ db.records, r.nombre ≠ n ∧ r.website ≠ some u) :
    saveLeadToDb indName { db := db, leads_saved := s } l =
      ({ db := { records := db.records ++ [savedRecord indName l db.nextId],
                 nextId := db.nextId + 1 }, leads_saved := s + 1 }, some db.nextId) := by
  have hgd : l.name.getD "" = n := by rw [hn1]; rfl
  have hgu : l.linkedin_url.getD "" = u := by rw [hu1]; rfl
  have hTname : pyTruthyOpt l.name = true := by
    rw [hn1]; simp [pyTruthyOpt, pyTruthyStr, hn]
  have hTurl : pyTruthyOpt l.linkedin_url = true := by
    rw [hu1]; simp [pyTruthyOpt, pyTruthyStr, hu]
  have hany : (getLatestLeads db 50).any
      (fun r => existingUrl r == some (l.linkedin_url.getD "")) = false := by
    refine List.any_eq_false.mpr ?_
    intro x hx
    have hxr : x ∈ db.records := by
      unfold getLatestLeads at hx
      exact List.mem_reverse.mp (List.mem_of_mem_take hx)
    simp [hgu, hlatest x hxr]
  have hcw : cleanOpt u = some u := by simp [cleanOpt, hu]
  have hdupq : checkDuplicateLead db n u = none := by
    unfold checkDuplicateLead
    have hnil : db.records.filter (fun r =>
        r.nombre == n || (pyTruthyStr u && pyTruthyStr (pyStrip u) && (r.website == some u))) = [] := by
      refine List.filter_eq_nil_iff.mpr ?_
      intro r hr
      obtain ⟨hna, hwe⟩ := hdup r hr
      simp [hna, hwe]
    simp only [Bool.and_assoc] at hnil ⊢
    simp [hnil]
  have hanyP : ¬ ∃ x ∈ getLatestLeads db 50, existingUrl x = some u := by
    rintro ⟨x, hx, hex⟩
    refine hlatest x ?_ hex
    unfold getLatestLeads at hx
    exact List.mem_reverse.mp (List.mem_of_mem_take hx)
  simp only [saveLeadToDb, hTname, hTurl, Bool.not_true, Bool.or_self, Bool.false_eq_true,
    if_false, hgu, saveLead, insertLead, hgd, hcw, hdupq, savedRecord]
  simp [hanyP, hn, hid, pyTruthyNat, hdupq, hcw, hgu, hgd]

/-- `_save_lead_to_db` on a candidate that passes the in-run
linkedin-url check but matches an existing row under the store's
`check_duplicate_lead` rule: the existing id is returned, no row is
inserted — and `leads_saved` is nevertheless incremented by the
helper. -/
lemma saveLeadToDb_dup_resolves (indName : String) (dbst : DBState) (s : Nat) (l : LeadDict)
    (n u : String) (i : Nat)
    (hn1 : l.name = some n) (hn : n ≠ "") (hu1 : l.linkedin_url = some u) (hu : u ≠ "")
    (hi : i ≠ 0)
    (hlatest : ∀ r ∈ getLatestLeads dbst 50, existingUrl r ≠ some u)
    (hdup : checkDuplicateLead dbst n u = some i) :
    saveLeadToDb indName { db := dbst, leads_saved := s } l =
      ({ db := dbst, leads_saved := s + 1 }, some i) := by
  have hgd : l.name.getD "" = n := by rw [hn1]; rfl
  have hgu : l.linkedin_url.getD "" = u := by rw [hu1]; rfl
  have hTname : pyTruthyOpt l.name = true := by
    rw [hn1]; simp [pyTruthyOpt, pyTruthyStr, hn]
  have hTurl : pyTruthyOpt l.linkedin_url = true := by
    rw [hu1]; simp [pyTruthyOpt, pyTruthyStr, hu]
  have hcw : cleanOpt u = some u := by simp [cleanOpt, hu]
  have hanyP : ¬ ∃ x ∈ getLatestLeads dbst 50, existingUrl x = some u := by
    rintro ⟨x, hx, hex⟩
    exact hlatest x hx hex
  simp only [saveLeadToDb, hTname, hTurl, Bool.not_true, Bool.or_self, Bool.false_eq_true,
    if_false, hgu, saveLead, insertLead, hgd, hcw, hdup]
  simp [hanyP, hn, hi, pyTruthyNat, hdup, hcw, hgu, hgd]

/-- C1 (amended): two candidates of the same run with *exactly* equal
displayName (the store's duplicate rule is exact string match, not
case/whitespace normalization) and distinct non-empty linkedin urls,
saved into a store containing no match for either: exactly one new row
is persisted and the second save resolves to the first row's id — but
the session leads-saved counter is incremented for the second save as
well (each accepted save increments it twice: once in
`_save_lead_to_db` and once in the orchestrator loop, totalling 4). -/
theorem claim_c1_name_dedup_counts (indName : String) (db : DBState) (s : Nat)
    (l1 l2 : LeadDict) (n u1 u2 : String)
    (hn1 : l1.name = some n) (hn2 : l2.name = some n) (hn : n ≠ "")
    (hu1 : l1.linkedin_url = some u1) (hu2 : l2.linkedin_url = some u2)
    (h1 : u1 ≠ "") (h2 : u2 ≠ "") (hne : u1 ≠ u2)
    (hid : db.nextId ≠ 0)
    (hfresh : ∀ r ∈ db.records, r.nombre ≠ n ∧ r.website ≠ some u1 ∧ r.website ≠ some u2 ∧
      existingUrl r ≠ some u1 ∧ existingUrl r ≠ some u2) :
    (savePhase indName { db := db, leads_saved := s } [l1, l2]).2 =
      [some db.nextId, some db.nextId] ∧
    (savePhase indName { db := db, leads_saved := s } [l1, l2]).1.db.records =
      db.records ++ [savedRecord indName l1 db.nextId] ∧
    (savePhase indName { db := db, leads_saved := s } [l1, l2]).1.leads_saved = s + 4 := by
  have hA := saveLeadToDb_fresh_insert indName db s l1 n u1 hn1 hn hu1 h1 hid
    (fun r hr => (hfresh r hr).2.2.2.1)
    (fun r hr => ⟨(hfresh r hr).1, (hfresh r hr).2.1⟩)
  have hrec1name : (savedRecord indName l1 db.nextId).nombre = n := by
    simp [savedRecord, hn1]
  have hlatest2 : ∀ r ∈ getLatestLeads
      { records := db.records ++ [savedRecord indName l1 db.nextId],
        nextId := db.nextId + 1 : DBState } 50,
      existingUrl r ≠ some u2 := by
    intro r hr
    unfold getLatestLeads at hr
    have hmem : r ∈ db.records ++ [savedRecord indName l1 db.nextId] :=
      List.mem_reverse.mp (List.mem_of_mem_take hr)
    rcases List.mem_append.mp hmem with hmem2 | hsr
    · exact (hfresh r hmem2).2.2.2.2
    · have hr1 : r = savedRecord indName l1 db.nextId := by simpa using hsr
      subst hr1
      rw [existingUrl_savedRecord indName l1 db.nextId u1 hu1 h1]
      simp [hne]
  have hfl : (db.records ++ [savedRecord indName l1 db.nextId]).filter
      (fun r => r.nombre == n ||
        (pyTruthyStr u2 && pyTruthyStr (pyStrip u2) && (r.website == some u2))) =
      [savedRecord indName l1 db.nextId] := by
    rw [List.filter_append]
    have hl : db.records.filter (fun r => r.nombre == n ||
        (pyTruthyStr u2 && pyTruthyStr (pyStrip u2) && (r.website == some u2))) = [] := by
      refine List.filter_eq_nil_iff.mpr ?_
      intro r hr
      obtain ⟨hna, _, hw2, _, _⟩ := hfresh r hr
      simp [hna, hw2]
    rw [hl, List.nil_append]
    simp [List.filter_cons, hrec1name]
  have hdup2 : checkDuplicateLead
      { records := db.records ++ [savedRecord indName l1 db.nextId],
        nextId := db.nextId + 1 : DBState } n u2 = some db.nextId := by
    simp only [checkDuplicateLead, hfl]
    simp [savedRecord]
  have hB := saveLeadToDb_dup_resolves indName
    { records := db.records ++ [savedRecord indName l1 db.nextId],
      nextId := db.nextId + 1 : DBState } (s + 1 + 1) l2 n u2 db.nextId
    hn2 hn hu2 h2 hid hlatest2 hdup2
  have htru : pyTruthyNat (some db.nextId) = true := by simp [pyTruthyNat, hid]
  have hstep : savePhase indName { db := db, leads_saved := s } [l1, l2] =
      ({ db := { records := db.records ++ [savedRecord indName l1 db.nextId],
                 nextId := db.nextId + 1 }, leads_saved := s + 1 + 1 + 1 + 1 },
       [some db.nextId, some db.nextId]) := by
    simp only [savePhase, hA, htru, if_true, hB]
  rw [hstep]
  exact ⟨rfl, rfl, rfl⟩

/-- First candidate of the duplicate-name scenario. -/
def cexLead1 : LeadDict :=
  { name := some "Clinic A", linkedin_url := some "https://linkedin.com/company/a",
    description := some "aesthetic clinic", source := some "LinkedIn" }

/-- Second candidate: displayName equal to the first only after case
normalization and trimming, distinct url. -/
def cexLead2 : LeadDict :=
  { name := some "clinic a ", linkedin_url := some "https://linkedin.com/company/b",
    description := some "aesthetic clinic", source := some "LinkedIn" }

/-- Third candidate: displayName exactly equal to the first, distinct
url. -/
def cexLead3 : LeadDict :=
  { name := some "Clinic A", linkedin_url := some "https://linkedin.com/company/c",
    description := some "aesthetic clinic", source := some "LinkedIn" }

/-- Witness for C1 at the concrete exact-name duplicate pair. -/
theorem claim_c1_witness :
    (savePhase "Medical Aesthetics" { db := emptyDB, leads_saved := 0 } [cexLead1, cexLead3]).2 =
      [some emptyDB.nextId, some emptyDB.nextId] ∧
    (savePhase "Medical Aesthetics" { db := emptyDB, leads_saved := 0 }
        [cexLead1, cexLead3]).1.db.records =
      emptyDB.records ++ [savedRecord "Medical Aesthetics" cexLead1 emptyDB.nextId] ∧
    (savePhase "Medical Aesthetics" { db := emptyDB, leads_saved := 0 }
        [cexLead1, cexLead3]).1.leads_saved = 0 + 4 :=
  claim_c1_name_dedup_counts "Medical Aesthetics" emptyDB 0 cexLead1 cexLead3
    "Clinic A" "https://linkedin.com/company/a" "https://linkedin.com/company/c"
    rfl rfl (by decide) rfl rfl (by decide) (by decide) (by decide) (by decide)
    (by intro r hr; simp [emptyDB] at hr)

/-- Counterexample for C1 as stated: (a) two same-run candidates whose
displayNames are equal after case normalization and trimming but not
as exact strings are persisted as two separate rows — "exactly one new
record" fails; (b) for exactly equal displayNames the second save does
resolve to the first row's id, but the leads-saved counter reaches 4
after two candidates while a single accepted save alone yields 2 — so
the second (duplicate-resolved) save incremented the counter,
contradicting "does not increment". -/
theorem claim_c1_counterexample :
    normalizedName "Clinic A" = normalizedName "clinic a " ∧
    "Clinic A" ≠ "clinic a " ∧
    (savePhase "Medical Aesthetics" { db := emptyDB, leads_saved := 0 }
      [cexLead1, cexLead2]).1.db.records.length = 2 ∧
    (savePhase "Medical Aesthetics" { db := emptyDB, leads_saved := 0 }
      [cexLead1, cexLead3]).2 = [some 1, some 1] ∧
    (savePhase "Medical Aesthetics" { db := emptyDB, leads_saved := 0 }
      [cexLead1, cexLead3]).1.leads_saved = 4 ∧
    (savePhase "Medical Aesthetics" { db := emptyDB, leads_saved := 0 }
      [cexLead1]).1.leads_saved = 2 := by
  refine ⟨by decide, by decide, by decide, by decide, by decide, by decide⟩

/-- C2 (amended): a candidate whose `linkedin_url` equals the
linkedin-or-website url of one of the 50 most recent persisted rows
(even with a different displayName) is rejected as a duplicate before
any store write: no new row is inserted, the returned value is `None`
— not the existing row's identifier — and the state (store and
counter) is unchanged. -/
theorem claim_c2_url_duplicate (indName : String) (ms : MasterState) (lead : LeadDict)
    (r : DBRecord) (u : String)
    (hname : pyTruthyOpt lead.name = true)
    (hurl : lead.linkedin_url = some u) (hu : u ≠ "")
    (hr : r ∈ getLatestLeads ms.db 50) (hex : existingUrl r = some u) :
    saveLeadToDb indName ms lead = (ms, none) := by
  have h1 : pyTruthyOpt lead.linkedin_url = true := by
    rw [hurl]; simp [pyTruthyOpt, pyTruthyStr, hu]
  have h2 : (getLatestLeads ms.db 50).any
      (fun x => existingUrl x == some (lead.linkedin_url.getD "")) = true := by
    refine List.any_eq_true.mpr ⟨r, hr, ?_⟩
    rw [hurl]
    simp [hex]
  simp [saveLeadToDb, hname, h1, h2]

/-- A store holding one previously persisted lead reached through its
website url. -/
def dupDB : DBState :=
  { records := [{ id := 1, nombre := "Clinica A", website := some "https://a.example" }],
    nextId := 2 }

/-- A candidate with a different displayName but the same canonical
url as the persisted lead. -/
def dupLead : LeadDict :=
  { name := some "Clinica B", linkedin_url := some "https://a.example",
    description := some "aesthetic clinic" }

/-- Witness for C2 at the concrete store and candidate. -/
theorem claim_c2_witness :
    saveLeadToDb "Medical Aesthetics" { db := dupDB, leads_saved := 0 } dupLead =
      ({ db := dupDB, leads_saved := 0 }, none) :=
  claim_c2_url_duplicate "Medical Aesthetics" _ dupLead
    ⟨1, "Clinica A", some "https://a.example", none, none, none, none, none, none, none⟩
    "https://a.example" (by decide) rfl (by decide) (by decide) (by decide)

/-- Counterexample for C2 as stated: the duplicate candidate's save
returns `None`; the existing record's identifier (1) is *not*
returned. -/
theorem claim_c2_counterexample :
    saveLeadToDb "Medical Aesthetics" { db := dupDB, leads_saved := 0 } dupLead =
      ({ db := dupDB, leads_saved := 0 }, none) ∧
    (saveLeadToDb "Medical Aesthetics" { db := dupDB, leads_saved := 0 } dupLead).2 ≠
      some 1 := by
  refine ⟨by decide, by decide⟩
